import Mathlib

/-!
Shallow embedding of the rainy-sdk authenticated request pipeline:
the typed error taxonomy (`src/error.rs`), HTTP error classification
(`src/client.rs`), the retry loop (`src/retry.rs`), the legacy
fixed-window rate limiter (`src/auth.rs`), the SSE chat stream decoder
(`src/endpoints/chat.rs`) and the `simple_chat` convenience wrapper
(`src/client.rs`).

Conventions: Rust `Result<T, RainyError>` becomes `Except RainyError T`;
`u16`/`u32`/`u64` become `Nat` (no arithmetic in the modelled code can
overflow them); `f64` fields are modelled by exact rationals (`Rat`);
`serde_json::Value` is modelled by the inductive `Json`; timestamps and
durations are `Nat` milliseconds.  The serde parsers themselves are
external collaborators and enter the model as explicit parameters
(`Option`/`Except`-valued parse results).
-/

namespace RainySdk

/-- Model of `serde_json::Value` (`Json.num` carries an exact rational in
place of `f64`). -/
inductive Json where
  | null : Json
  | bool (b : Bool) : Json
  | num (q : Rat) : Json
  | str (s : String) : Json
  | arr (xs : List Json) : Json
  | obj (fields : List (String × Json)) : Json
deriving Repr

/-- `serde_json::Value::get(key)` on an object (first binding wins, as JSON
objects carry unique keys); `None` on non-objects. -/
def Json.get (j : Json) (key : String) : Option Json :=
  match j with
  | .obj fields => fields.lookup key
  | _ => none

/-- `Value::as_str`. -/
def Json.asStr (j : Json) : Option String :=
  match j with
  | .str s => some s
  | _ => none

/-- `Value::as_u64`: succeeds exactly on non-negative integral numbers. -/
def Json.asU64 (j : Json) : Option Nat :=
  match j with
  | .num q => if q.den = 1 && 0 ≤ q.num then some q.num.toNat else none
  | _ => none

/-- `Value::as_f64`. -/
def Json.asF64 (j : Json) : Option Rat :=
  match j with
  | .num q => some q
  | _ => none

/-- The error taxonomy of `src/error.rs` (`enum RainyError`), one
constructor per variant with the variant's fields in source order. -/
inductive RainyError where
  | Authentication (code message : String) (retryable : Bool)
  | InvalidRequest (code message : String) (details : Option Json)
  | Provider (code message provider : String) (retryable : Bool)
  | RateLimit (code message : String) (retry_after : Option Nat)
      (current_usage : Option String)
  | InsufficientCredits (code message : String)
      (current_credits estimated_cost : Rat) (reset_date : Option String)
  | Network (message : String) (retryable : Bool) (source_error : Option String)
  | Api (code message : String) (status_code : Nat) (retryable : Bool)
      (request_id : Option String)
  | Timeout (message : String) (duration_ms : Nat)
  | Serialization (message : String) (source_error : Option String)
deriving Repr

/-- `RainyError::is_retryable` (`src/error.rs`): the stored flag for
`Authentication`, `Provider`, `Network` and `Api`; `true` for `RateLimit`
and `Timeout`; `false` for everything else. -/
def RainyError.is_retryable : RainyError → Bool
  | .Authentication _ _ retryable => retryable
  | .Provider _ _ _ retryable => retryable
  | .Network _ retryable _ => retryable
  | .Api _ _ _ retryable _ => retryable
  | .RateLimit _ _ _ _ => true
  | .Timeout _ _ => true
  | _ => false

/-- Discriminator used to state claims about which variant a
classification produced. -/
def RainyError.isRateLimitVariant : RainyError → Bool
  | .RateLimit _ _ _ _ => true
  | _ => false

/-- `struct ApiErrorDetails` (`src/error.rs`): the structured error body
`{ error: { code, message, details?, retryable?, timestamp?, request_id? } }`. -/
structure ApiErrorDetails where
  code : String
  message : String
  details : Option Json
  retryable : Option Bool
  timestamp : Option String
  request_id : Option String
deriving Repr

/-- `reqwest::StatusCode::is_server_error`: `500..=599`. -/
def is_server_error (status : Nat) : Bool :=
  500 ≤ status && status ≤ 599

/-- `http::StatusCode::canonical_reason`, restricted to the status codes
exercised in this development; every other status yields `none`, matching
the `unwrap_or("UNKNOWN")` fallback in `handle_response`. -/
def canonical_reason (status : Nat) : Option String :=
  match status with
  | 400 => some "Bad Request"
  | 401 => some "Unauthorized"
  | 403 => some "Forbidden"
  | 404 => some "Not Found"
  | 429 => some "Too Many Requests"
  | 500 => some "Internal Server Error"
  | 502 => some "Bad Gateway"
  | 503 => some "Service Unavailable"
  | _ => none

/-- `RainyClient::map_api_error` (`src/client.rs`): dispatch on the
structured body's `code`, producing the `Err` payload. -/
def map_api_error (error : ApiErrorDetails) (status_code : Nat)
    (request_id : Option String) : RainyError :=
  let retryable := error.retryable.getD (decide (500 ≤ status_code))
  if error.code = "INVALID_API_KEY" ∨ error.code = "EXPIRED_API_KEY" then
    .Authentication error.code error.message false
  else if error.code = "INSUFFICIENT_CREDITS" then
    match error.details with
    | some details =>
        .InsufficientCredits error.code error.message
          (((details.get "current_credits").bind Json.asF64).getD 0)
          (((details.get "estimated_cost").bind Json.asF64).getD 0)
          ((details.get "reset_date").bind Json.asStr)
    | none => .InsufficientCredits error.code error.message 0 0 none
  else if error.code = "RATE_LIMIT_EXCEEDED" then
    .RateLimit error.code error.message
      ((error.details.bind (fun d => d.get "retry_after")).bind Json.asU64) none
  else if error.code = "INVALID_REQUEST" ∨ error.code = "MISSING_REQUIRED_FIELD" ∨
      error.code = "INVALID_MODEL" then
    .InvalidRequest error.code error.message error.details
  else if error.code = "PROVIDER_ERROR" ∨ error.code = "PROVIDER_UNAVAILABLE" then
    .Provider error.code error.message
      (((error.details.bind (fun d => d.get "provider")).bind Json.asStr).getD "unknown")
      retryable
  else
    .Api error.code error.message status_code retryable request_id

/-- The non-2xx branch of `RainyClient::handle_response` (`src/client.rs`):
`parsed` is the result of `serde_json::from_str::<ApiErrorResponse>(&text)`
(the inner `error` object when it succeeds), `request_id` the value of the
`x-request-id` header.  A parseable body goes through `map_api_error`; an
unparseable one falls back to a generic `Api` error built from the
canonical reason, the raw text and `is_server_error`. -/
def classify_error_response (status : Nat) (request_id : Option String)
    (text : String) (parsed : Option ApiErrorDetails) : RainyError :=
  match parsed with
  | some e => map_api_error e status request_id
  | none =>
      .Api ((canonical_reason status).getD "UNKNOWN")
        (if text = "" then "HTTP " ++ toString status else text)
        status (is_server_error status) request_id

/-- `struct RetryConfig` (`src/retry.rs`), with the `f64` multiplier as an
exact rational. -/
structure RetryConfig where
  max_retries : Nat
  base_delay_ms : Nat
  max_delay_ms : Nat
  backoff_multiplier : Rat
  jitter : Bool

/-- `RetryConfig::delay_for_attempt` (`src/retry.rs`), in milliseconds.
`jitter_factor` stands for the value drawn from
`rng.gen_range(0.75..=1.25)`; it is consulted only when jitter is enabled
and `attempt > 0`, exactly as in the source.  The final
`Duration::from_millis(delay as u64)` cast truncates toward zero and
saturates negatives at zero, which `Rat.floor` followed by `Int.toNat`
reproduces. -/
def RetryConfig.delay_for_attempt (config : RetryConfig) (attempt : Nat)
    (jitter_factor : Rat) : Nat :=
  let base_delay : Rat := config.base_delay_ms
  let multiplier : Rat := config.backoff_multiplier ^ attempt
  let delay := base_delay * multiplier
  let delay := if config.jitter && decide (0 < attempt) then delay * jitter_factor
    else delay
  let delay := min delay (config.max_delay_ms : Rat)
  delay.floor.toNat

/-- The loop body of `retry_with_backoff` (`src/retry.rs`).  The pure
operation is modelled as a map from the invocation index to that
invocation's outcome; the returned pair is (final result, number of
invocations performed).  `fuel` counts the remaining iterations of
`for attempt in 0..=max_retries` (so the entry point passes
`max_retries + 1`), and `fuel = 0` is the fall-through after the loop,
returning the recorded last error or the fallback `Network` error. -/
def retry_go {α : Type} (max_retries : Nat) (op : Nat → Except RainyError α)
    (fuel attempt : Nat) (last_error : Option RainyError) :
    Except RainyError α × Nat :=
  match fuel with
  | 0 =>
      (.error (last_error.getD
        (.Network "All retry attempts failed" false none)), 0)
  | fuel + 1 =>
      match op attempt with
      | .ok result => (.ok result, 1)
      | .error error =>
          if !error.is_retryable || attempt == max_retries then
            (.error error, 1)
          else
            let rest := retry_go max_retries op fuel (attempt + 1) (some error)
            (rest.1, rest.2 + 1)

/-- `retry_with_backoff` (`src/retry.rs`): run the operation up to
`max_retries + 1` times, stopping at the first success or
non-retryable/out-of-budget failure.  The backoff sleeps do not affect
the returned value or the invocation count and are not tracked. -/
def retry_with_backoff {α : Type} (config : RetryConfig)
    (op : Nat → Except RainyError α) : Except RainyError α × Nat :=
  retry_go config.max_retries op (config.max_retries + 1) 0 none

/-- `enum MessageRole` (`src/models.rs`). -/
inductive MessageRole where
  | System
  | User
  | Assistant
deriving Repr, DecidableEq

/-- `struct ChatMessage` (`src/models.rs`). -/
structure ChatMessage where
  role : MessageRole
  content : String
deriving Repr, DecidableEq

/-- `ChatMessage::user` (`src/models.rs`). -/
def ChatMessage.user (content : String) : ChatMessage :=
  ⟨MessageRole.User, content⟩

/-- `struct Usage` (`src/models.rs`). -/
structure Usage where
  prompt_tokens : Nat
  completion_tokens : Nat
  total_tokens : Nat
deriving Repr, DecidableEq

/-- `struct ChatChoice` (`src/models.rs`). -/
structure ChatChoice where
  index : Nat
  message : ChatMessage
  finish_reason : String
deriving Repr, DecidableEq

/-- `struct ChatCompletionResponse` (`src/models.rs`). -/
structure ChatCompletionResponse where
  id : String
  object : String
  created : Nat
  model : String
  choices : List ChatChoice
  usage : Option Usage
deriving Repr, DecidableEq

/-- `struct RequestMetadata` (`src/models.rs`), `f64` credit amounts as
exact rationals. -/
structure RequestMetadata where
  response_time : Option Nat
  provider : Option String
  tokens_used : Option Nat
  credits_used : Option Rat
  credits_remaining : Option Rat
  request_id : Option String
deriving Repr

/-- `RainyClient::simple_chat` (`src/client.rs`), factored over the
outcome of the inner `chat_completion` call (which performs the network
round trip): on success it returns the content of the first choice's
message, defaulting to the empty string when `choices` is empty
(`choices.into_iter().next().map(|c| c.message.content).unwrap_or_default()`);
an error propagates via `?`. -/
def simple_chat (completion :
    Except RainyError (ChatCompletionResponse × RequestMetadata)) :
    Except RainyError String :=
  match completion with
  | .error e => .error e
  | .ok (response, _) =>
      .ok (((response.choices.head?).map
        (fun choice => choice.message.content)).getD "")

/-- An event delivered by the `eventsource_stream` adapter in
`create_chat_completion_stream` (`src/endpoints/chat.rs`); only the
`data` payload is consumed by the decoder. -/
structure SseEvent where
  data : String
deriving Repr, DecidableEq

/-- Model of Rust `str::trim`: strip whitespace from both ends (here via
structural list recursion so that concrete instances evaluate). -/
def rust_trim (s : String) : String :=
  ⟨((s.data.dropWhile Char.isWhitespace).reverse.dropWhile
      Char.isWhitespace).reverse⟩

/-- The `filter_map` decoder of `RainyClient::create_chat_completion_stream`
(`src/endpoints/chat.rs`).  The incoming stream is modelled as the list
of items produced by `.bytes_stream().eventsource()` — `Except.error`
for a transport/SSE-framing failure, `Except.ok` for a framed event —
and `parse` models `serde_json::from_str::<ChatCompletionResponse>`
(its `Except.error` carries the serde error message).  `List.filterMap`
mirrors `StreamExt::filter_map`: an item mapped to `none` is skipped and
the stream continues. -/
def decode_chat_stream
    (parse : String → Except String ChatCompletionResponse)
    (events : List (Except String SseEvent)) :
    List (Except RainyError ChatCompletionResponse) :=
  events.filterMap (fun item =>
    match item with
    | .ok event =>
        if rust_trim event.data = "[DONE]" then none
        else
          match parse event.data with
          | .ok response => some (.ok response)
          | .error e => some (.error (.Serialization e (some e)))
    | .error e =>
        some (.error (.Network ("SSE parsing error: " ++ e) true (some e))))

/-- The mutable state of the legacy fixed-window `RateLimiter`
(`src/auth.rs`): the configured per-minute limit, the window start
(`last_request`, a timestamp in milliseconds) and the count of requests
admitted in the current window. -/
structure RateLimiterState where
  requests_per_minute : Nat
  last_request : Nat
  request_count : Nat
deriving Repr, DecidableEq

/-- `RateLimiter::new` (`src/auth.rs`): count 0, window starting now. -/
def RateLimiter.new (requests_per_minute : Nat) (now : Nat) :
    RateLimiterState :=
  ⟨requests_per_minute, now, 0⟩

/-- `RateLimiter::wait_if_needed` (`src/auth.rs`), with `Instant::now()`
passed in as `now` (milliseconds) and the suspension made explicit: the
result is (milliseconds slept, state after the call).  Mirrors the
source: reset the count and window when at least 60 s have elapsed;
when the (possibly reset) count has reached the limit, sleep for
`60 s - elapsed` (computed from the elapsed value read at entry), then
reset the count and restart the window at the wake-up instant; finally
increment the count. -/
def wait_if_needed (s : RateLimiterState) (now : Nat) :
    Nat × RateLimiterState :=
  let elapsed := now - s.last_request
  let s1 := if elapsed ≥ 60000 then
      { s with request_count := 0, last_request := now }
    else s
  if s1.request_count ≥ s.requests_per_minute then
    let wait_time := 60000 - elapsed
    (wait_time,
      { s1 with request_count := 1, last_request := now + wait_time })
  else
    (0, { s1 with request_count := s1.request_count + 1 })

/-- A sequence of `wait_if_needed` acquisitions at the given timestamps,
returning the list of suspension durations and the final state. -/
def run_acquisitions (s : RateLimiterState) :
    List Nat → List Nat × RateLimiterState
  | [] => ([], s)
  | t :: ts =>
      let step := wait_if_needed s t
      let rest := run_acquisitions step.2 ts
      (step.1 :: rest.1, rest.2)

end RainySdk

namespace RainySdk

/-- CLAIM C8: `is_retryable` returns `true` for every `RateLimit` and
`Timeout` value regardless of fields; `false` for every `InvalidRequest`,
`InsufficientCredits` and `Serialization` value regardless of fields; and
the stored `retryable` flag for `Authentication`, `Provider`, `Network`
and `Api`. -/
theorem C8_is_retryable_cases :
    (∀ c m ra cu, (RainyError.RateLimit c m ra cu).is_retryable = true) ∧
    (∀ m d, (RainyError.Timeout m d).is_retryable = true) ∧
    (∀ c m d, (RainyError.InvalidRequest c m d).is_retryable = false) ∧
    (∀ c m cc ec rd,
      (RainyError.InsufficientCredits c m cc ec rd).is_retryable = false) ∧
    (∀ m s, (RainyError.Serialization m s).is_retryable = false) ∧
    (∀ c m r, (RainyError.Authentication c m r).is_retryable = r) ∧
    (∀ c m p r, (RainyError.Provider c m p r).is_retryable = r) ∧
    (∀ m r s, (RainyError.Network m r s).is_retryable = r) ∧
    (∀ c m sc r id, (RainyError.Api c m sc r id).is_retryable = r) := by
  refine ⟨?_, ?_, ?_, ?_, ?_, ?_, ?_, ?_, ?_⟩ <;> intros <;> rfl

/-- CLAIM C2, counterexample: a status-429 response with an unparseable
body is NOT classified as `RateLimit`; `handle_response`'s fallback
produces a generic `Api` error with `retryable = false` (429 is not a
server error). -/
theorem C2_counterexample_429_is_api :
    (classify_error_response 429 none "rate limited" none).isRateLimitVariant
        = false ∧
    classify_error_response 429 none "rate limited" none
        = RainyError.Api "Too Many Requests" "rate limited" 429 false none := by
  exact ⟨rfl, rfl⟩

/-- CLAIM C2, amended: for every non-2xx response whose body does not
parse as the structured error document, classification yields a generic
`Api` error for EVERY status — code is the status's canonical reason (or
"UNKNOWN"), message is the raw body text (or "HTTP <status>" when the
body is empty), and `retryable = (500 ≤ status ≤ 599)`; there are no
dedicated mappings for 401, 403, 429 or 400. -/
theorem C2_unparseable_body_is_generic_api (status : Nat)
    (request_id : Option String) (text : String) :
    classify_error_response status request_id text none
      = RainyError.Api ((canonical_reason status).getD "UNKNOWN")
          (if text = "" then "HTTP " ++ toString status else text)
          status (is_server_error status) request_id := by
  rfl

/-- CLAIM C6: a structured error body with code `PROVIDER_ERROR` or
`PROVIDER_UNAVAILABLE` classifies as `Provider`, with retryability the
body's `retryable` field when present and `status ≥ 500` otherwise, and
with provider `details.provider` when present and "unknown" otherwise. -/
theorem C6_provider_error_mapping (e : ApiErrorDetails) (status : Nat)
    (request_id : Option String)
    (h : e.code = "PROVIDER_ERROR" ∨ e.code = "PROVIDER_UNAVAILABLE") :
    map_api_error e status request_id
      = RainyError.Provider e.code e.message
          (((e.details.bind (fun d => d.get "provider")).bind Json.asStr).getD
            "unknown")
          (e.retryable.getD (decide (500 ≤ status))) := by
  obtain ⟨code, msg, det, retr, ts, rid⟩ := e
  simp only at h
  rcases h with h | h <;> subst h <;> rfl

/-- CLAIM C6, witness: status 500 with body code `PROVIDER_ERROR`,
message "boom", `retryable: true` and no `details` yields
`Provider{retryable: true, provider: "unknown"}`. -/
theorem C6_provider_error_mapping_witness :
    map_api_error ⟨"PROVIDER_ERROR", "boom", none, some true, none, none⟩
        500 none
      = RainyError.Provider "PROVIDER_ERROR" "boom" "unknown" true := by
  exact C6_provider_error_mapping
    ⟨"PROVIDER_ERROR", "boom", none, some true, none, none⟩ 500 none
    (Or.inl rfl)

/-- CLAIM C9: a structured error body with code `INVALID_API_KEY` or
`EXPIRED_API_KEY` classifies as `Authentication` with
`retryable = false`, ignoring the body's `retryable` field. -/
theorem C9_auth_retryable_hardcoded_false (e : ApiErrorDetails)
    (status : Nat) (request_id : Option String)
    (h : e.code = "INVALID_API_KEY" ∨ e.code = "EXPIRED_API_KEY") :
    map_api_error e status request_id
      = RainyError.Authentication e.code e.message false := by
  obtain ⟨code, msg, det, retr, ts, rid⟩ := e
  simp only at h
  rcases h with h | h <;> subst h <;> rfl

/-- CLAIM C9, witness: `INVALID_API_KEY` with `retryable: true` in the
body still yields `Authentication{retryable: false}`. -/
theorem C9_auth_retryable_hardcoded_false_witness :
    map_api_error ⟨"INVALID_API_KEY", "bad key", none, some true, none, none⟩
        401 none
      = RainyError.Authentication "INVALID_API_KEY" "bad key" false := by
  exact C9_auth_retryable_hardcoded_false
    ⟨"INVALID_API_KEY", "bad key", none, some true, none, none⟩ 401 none
    (Or.inl rfl)

/-- Retry loop after a prefix of retryable failures ending in a success:
starting the loop at attempt `a` with fuel `m + 1 - a`, if invocations
`a, a+1, …, a+k-1` fail retryably and invocation `a+k` (still within
budget) succeeds, the run returns the success after `k + 1` invocations. -/
theorem retry_go_ok {α : Type} (m : Nat) (op : Nat → Except RainyError α)
    (errf : Nat → RainyError) (v : α) (k : Nat) :
    ∀ (a : Nat) (last : Option RainyError), a + k ≤ m →
      (∀ j, j < k → op (a + j) = .error (errf (a + j)) ∧
        (errf (a + j)).is_retryable = true) →
      op (a + k) = .ok v →
      retry_go m op (m + 1 - a) a last = (.ok v, k + 1) := by
  induction k with
  | zero =>
      intro a last hle hfail hok
      rw [Nat.add_zero] at hok
      rw [show m + 1 - a = (m - a) + 1 by omega]
      simp only [retry_go]
      rw [hok]
  | succ k ih =>
      intro a last hle hfail hok
      have h0 := hfail 0 (Nat.succ_pos k)
      rw [Nat.add_zero] at h0
      have hne : (a == m) = false := by
        simp only [beq_eq_false_iff_ne, ne_eq]
        omega
      rw [show m + 1 - a = (m - a) + 1 by omega]
      simp only [retry_go]
      simp only [h0.1, h0.2, hne, Bool.not_true, Bool.or_false,
        Bool.false_eq_true, if_false]
      rw [show m - a = m + 1 - (a + 1) by omega]
      rw [ih (a + 1) (some (errf a)) (by omega)
        (fun j hj => by
          have h := hfail (j + 1) (by omega)
          rwa [show a + (j + 1) = a + 1 + j by omega] at h)
        (by rwa [show a + 1 + k = a + (k + 1) by omega])]

/-- Retry loop when every invocation from attempt `a` through the budget
`m` fails retryably: the run performs `k + 1` invocations (`a + k = m`)
and returns the error of the final attempt `m`. -/
theorem retry_go_exhaust {α : Type} (m : Nat)
    (op : Nat → Except RainyError α) (errf : Nat → RainyError) (k : Nat) :
    ∀ (a : Nat) (last : Option RainyError), a + k = m →
      (∀ j, a ≤ j → j ≤ m → op j = .error (errf j) ∧
        (errf j).is_retryable = true) →
      retry_go m op (m + 1 - a) a last = (.error (errf m), k + 1) := by
  induction k with
  | zero =>
      intro a last heq hfail
      have h0 := hfail a (Nat.le_refl a) (by omega)
      rw [show m + 1 - a = (m - a) + 1 by omega]
      simp only [retry_go]
      have hbe : (a == m) = true := by
        simp only [beq_iff_eq]
        omega
      simp only [h0.1, h0.2, hbe, Bool.not_true, Bool.or_true, if_true]
      rw [show a = m by omega]
  | succ k ih =>
      intro a last heq hfail
      have h0 := hfail a (Nat.le_refl a) (by omega)
      have hne : (a == m) = false := by
        simp only [beq_eq_false_iff_ne, ne_eq]
        omega
      rw [show m + 1 - a = (m - a) + 1 by omega]
      simp only [retry_go]
      simp only [h0.1, h0.2, hne, Bool.not_true, Bool.or_false,
        Bool.false_eq_true, if_false]
      rw [show m - a = m + 1 - (a + 1) by omega]
      rw [ih (a + 1) (some (errf a)) (by omega)
        (fun j hj1 hj2 => hfail j (by omega) hj2)]

/-- Retry loop stopped by a non-retryable failure: after a prefix of `k`
retryable failures, a non-retryable error at invocation `a + k` is
returned immediately after `k + 1` invocations. -/
theorem retry_go_fatal {α : Type} (m : Nat)
    (op : Nat → Except RainyError α) (errf : Nat → RainyError)
    (e : RainyError) (k : Nat) :
    ∀ (a : Nat) (last : Option RainyError), a + k ≤ m →
      (∀ j, j < k → op (a + j) = .error (errf (a + j)) ∧
        (errf (a + j)).is_retryable = true) →
      op (a + k) = .error e → e.is_retryable = false →
      retry_go m op (m + 1 - a) a last = (.error e, k + 1) := by
  induction k with
  | zero =>
      intro a last hle hfail hfatal hnr
      rw [Nat.add_zero] at hfatal
      rw [show m + 1 - a = (m - a) + 1 by omega]
      simp only [retry_go]
      simp only [hfatal, hnr, Bool.not_false, Bool.true_or, if_true]
  | succ k ih =>
      intro a last hle hfail hfatal hnr
      have h0 := hfail 0 (Nat.succ_pos k)
      rw [Nat.add_zero] at h0
      have hne : (a == m) = false := by
        simp only [beq_eq_false_iff_ne, ne_eq]
        omega
      rw [show m + 1 - a = (m - a) + 1 by omega]
      simp only [retry_go]
      simp only [h0.1, h0.2, hne, Bool.not_true, Bool.or_false,
        Bool.false_eq_true, if_false]
      rw [show m - a = m + 1 - (a + 1) by omega]
      rw [ih (a + 1) (some (errf a)) (by omega)
        (fun j hj => by
          have h := hfail (j + 1) (by omega)
          rwa [show a + (j + 1) = a + 1 + j by omega] at h)
        (by rwa [show a + 1 + k = a + (k + 1) by omega]) hnr]

/-- CLAIM C1: with `max_retries = m`, after `k` consecutive retryable
failures `retry_with_backoff` invokes the operation exactly
`min (k+1) (m+1)` times — `k + 1` invocations when invocation `k`
succeeds within budget, `k + 1` invocations returning the error when
invocation `k` fails non-retryably within budget, and `m + 1`
invocations returning the last (attempt-`m`) error when all `m + 1`
attempts fail retryably. -/
theorem C1_retry_budget {α : Type} (cfg : RetryConfig)
    (op : Nat → Except RainyError α) (errf : Nat → RainyError) (k : Nat)
    (hfail : ∀ j, j < k → op j = .error (errf j) ∧
      (errf j).is_retryable = true) :
    (∀ v, k ≤ cfg.max_retries → op k = .ok v →
        retry_with_backoff cfg op = (.ok v, k + 1)) ∧
    (∀ e, k ≤ cfg.max_retries → op k = .error e → e.is_retryable = false →
        retry_with_backoff cfg op = (.error e, k + 1)) ∧
    (k = cfg.max_retries + 1 →
        retry_with_backoff cfg op
          = (.error (errf cfg.max_retries), cfg.max_retries + 1)) := by
  refine ⟨?_, ?_, ?_⟩
  · intro v hk hok
    have h := retry_go_ok cfg.max_retries op errf v k 0 none
      (by omega)
      (fun j hj => by simpa using hfail j hj)
      (by simpa using hok)
    simpa [retry_with_backoff] using h
  · intro e hk hfatal hnr
    have h := retry_go_fatal cfg.max_retries op errf e k 0 none
      (by omega)
      (fun j hj => by simpa using hfail j hj)
      (by simpa using hfatal) hnr
    simpa [retry_with_backoff] using h
  · intro hk
    have h := retry_go_exhaust cfg.max_retries op errf cfg.max_retries 0 none
      (by omega)
      (fun j hj1 hj2 => hfail j (by omega))
    simpa [retry_with_backoff] using h

/-- CLAIM C1, witness: `max_retries = 2` and every attempt failing with a
retryable `Network` error gives exactly 3 invocations and returns the
last `Network` error. -/
theorem C1_retry_budget_witness :
    retry_with_backoff (α := Unit) ⟨2, 1000, 30000, 2, true⟩
        (fun _ => .error (RainyError.Network "connection refused" true none))
      = (.error (RainyError.Network "connection refused" true none), 3) := by
  exact (C1_retry_budget ⟨2, 1000, 30000, 2, true⟩
    (fun _ => .error (RainyError.Network "connection refused" true none))
    (fun _ => RainyError.Network "connection refused" true none) 3
    (fun j hj => ⟨rfl, rfl⟩)).2.2 rfl

/-- `Rat.floor` agrees with the `Int.floor` of the `FloorRing ℚ`
instance. -/
theorem rat_floor_eq_int_floor (q : Rat) : q.floor = ⌊q⌋ := by
  rw [Rat.floor_def', Rat.floor_def]

/-- CLAIM C4, counterexample: `delay_for_attempt` is not monotone for
every configuration with jitter disabled — with
`backoff_multiplier = 1/2` (the field is public and unconstrained) the
delay halves instead of growing: attempt 1 gives 500 ms, attempt 0 gives
1000 ms. -/
theorem C4_counterexample_decreasing_delay :
    RetryConfig.delay_for_attempt ⟨3, 1000, 30000, (1 : Rat) / 2, false⟩ 1 1
      < RetryConfig.delay_for_attempt ⟨3, 1000, 30000, (1 : Rat) / 2, false⟩
          0 1 := by
  have e1 : RetryConfig.delay_for_attempt
      ⟨3, 1000, 30000, (1 : Rat) / 2, false⟩ 1 1 = 500 := by
    simp only [RetryConfig.delay_for_attempt]
    norm_num [min_def, rat_floor_eq_int_floor]
    rfl
  have e0 : RetryConfig.delay_for_attempt
      ⟨3, 1000, 30000, (1 : Rat) / 2, false⟩ 0 1 = 1000 := by
    simp only [RetryConfig.delay_for_attempt]
    norm_num [min_def, rat_floor_eq_int_floor]
    rfl
  rw [e1, e0]
  norm_num

/-- CLAIM C4, amended: with jitter disabled AND `backoff_multiplier ≥ 1`,
`delay_for_attempt (n+1) ≥ delay_for_attempt n` for every `n`; and (for
every such configuration) `delay_for_attempt n ≤ max_delay_ms` for every
`n`. -/
theorem C4_backoff_monotone_and_capped (cfg : RetryConfig) (jf : Rat)
    (n : Nat) (hjit : cfg.jitter = false)
    (hmult : 1 ≤ cfg.backoff_multiplier) :
    cfg.delay_for_attempt n jf ≤ cfg.delay_for_attempt (n + 1) jf ∧
    cfg.delay_for_attempt n jf ≤ cfg.max_delay_ms := by
  have hjcond : ∀ a : Nat, (cfg.jitter && decide (0 < a)) = false := by
    intro a
    rw [hjit, Bool.false_and]
  have hcap : ∀ a : Nat, cfg.delay_for_attempt a jf ≤ cfg.max_delay_ms := by
    intro a
    unfold RetryConfig.delay_for_attempt
    rw [hjcond a]
    simp only [Bool.false_eq_true, if_false]
    have hmin : min ((cfg.base_delay_ms : Rat) * cfg.backoff_multiplier ^ a)
        (cfg.max_delay_ms : Rat) ≤ (cfg.max_delay_ms : Rat) :=
      min_le_right _ _
    have hfl := Int.floor_le_floor hmin
    rw [Int.floor_natCast] at hfl
    rw [rat_floor_eq_int_floor]
    omega
  refine ⟨?_, hcap n⟩
  unfold RetryConfig.delay_for_attempt
  rw [hjcond n, hjcond (n + 1)]
  simp only [Bool.false_eq_true, if_false]
  have hpow : cfg.backoff_multiplier ^ n ≤ cfg.backoff_multiplier ^ (n + 1) :=
    pow_le_pow_right₀ hmult (Nat.le_succ n)
  have hmul : (cfg.base_delay_ms : Rat) * cfg.backoff_multiplier ^ n
      ≤ (cfg.base_delay_ms : Rat) * cfg.backoff_multiplier ^ (n + 1) :=
    mul_le_mul_of_nonneg_left hpow (by positivity)
  have hmin : min ((cfg.base_delay_ms : Rat) * cfg.backoff_multiplier ^ n)
        (cfg.max_delay_ms : Rat)
      ≤ min ((cfg.base_delay_ms : Rat) * cfg.backoff_multiplier ^ (n + 1))
        (cfg.max_delay_ms : Rat) :=
    min_le_min hmul (le_refl _)
  have hfl := Int.floor_le_floor hmin
  rw [rat_floor_eq_int_floor, rat_floor_eq_int_floor]
  omega

/-- CLAIM C4, witness: the default configuration with jitter turned off
(`base = 1000`, `multiplier = 2`, `max = 30000`) is monotone at attempt 1
and capped. -/
theorem C4_backoff_monotone_and_capped_witness :
    RetryConfig.delay_for_attempt ⟨3, 1000, 30000, 2, false⟩ 1 1
        ≤ RetryConfig.delay_for_attempt ⟨3, 1000, 30000, 2, false⟩ 2 1 ∧
    RetryConfig.delay_for_attempt ⟨3, 1000, 30000, 2, false⟩ 1 1 ≤ 30000 := by
  exact C4_backoff_monotone_and_capped ⟨3, 1000, 30000, 2, false⟩ 1 1 rfl
    (by decide)

/-- CLAIM C3, counterexample: the `[DONE]` sentinel does NOT terminate
the decoded sequence — `filter_map` merely skips it, so an event arriving
after the sentinel is still decoded and yielded.  Fed one well-formed
event, then `[DONE]`, then another well-formed event, the decoder yields
two items, not one. -/
theorem C3_counterexample_event_after_done_is_yielded :
    decode_chat_stream
        (fun s => if s = "chunk1"
          then .ok ⟨"id-1", "chat.completion", 0, "gpt-4o", [], none⟩
          else .error "invalid json")
        [.ok ⟨"chunk1"⟩, .ok ⟨"[DONE]"⟩, .ok ⟨"chunk1"⟩]
      = [.ok ⟨"id-1", "chat.completion", 0, "gpt-4o", [], none⟩,
         .ok ⟨"id-1", "chat.completion", 0, "gpt-4o", [], none⟩] ∧
    (decode_chat_stream
        (fun s => if s = "chunk1"
          then .ok ⟨"id-1", "chat.completion", 0, "gpt-4o", [], none⟩
          else .error "invalid json")
        [.ok ⟨"chunk1"⟩, .ok ⟨"[DONE]"⟩, .ok ⟨"chunk1"⟩]).length ≠ 1 := by
  exact ⟨rfl, by decide⟩

/-- CLAIM C3, amended: a `[DONE]` payload yields no item (it is skipped),
and when no input follows the sentinel the decoded sequence ends there;
fed one well-formed event followed by `data: [DONE]`, the decoder yields
exactly one decoded event and nothing else.  However the sentinel does
not terminate the sequence: decoding continues on whatever input follows
it. -/
theorem C3_done_skipped_sequence_ends
    (parse : String → Except String ChatCompletionResponse)
    (e d : SseEvent) (r : ChatCompletionResponse)
    (hp : parse e.data = .ok r) (he : rust_trim e.data ≠ "[DONE]")
    (hd : rust_trim d.data = "[DONE]") :
    decode_chat_stream parse [.ok e, .ok d] = [.ok r] ∧
    (∀ rest, decode_chat_stream parse (.ok e :: .ok d :: rest)
        = .ok r :: decode_chat_stream parse rest) := by
  constructor
  · simp [decode_chat_stream, hp, hd, he]
  · intro rest
    simp [decode_chat_stream, hp, hd, he]

/-- CLAIM C3, witness: one parseable event then the sentinel yields
exactly one decoded event. -/
theorem C3_done_skipped_sequence_ends_witness :
    decode_chat_stream
        (fun s => if s = "chunk1"
          then .ok ⟨"id-1", "chat.completion", 0, "gpt-4o", [], none⟩
          else .error "invalid json")
        [.ok ⟨"chunk1"⟩, .ok ⟨"[DONE]"⟩]
      = [.ok ⟨"id-1", "chat.completion", 0, "gpt-4o", [], none⟩] := by
  exact (C3_done_skipped_sequence_ends
    (fun s => if s = "chunk1"
      then .ok ⟨"id-1", "chat.completion", 0, "gpt-4o", [], none⟩
      else .error "invalid json")
    ⟨"chunk1"⟩ ⟨"[DONE]"⟩ ⟨"id-1", "chat.completion", 0, "gpt-4o", [], none⟩
    rfl (by decide) rfl).1

/-- CLAIM C7: a non-sentinel payload that fails to deserialize yields a
`Serialization` error as an item of the decoded sequence, and decoding
continues with the subsequent events — the payload is neither silently
dropped nor does it terminate the stream. -/
theorem C7_undecodable_payload_yields_error_item
    (parse : String → Except String ChatCompletionResponse) (e : SseEvent)
    (msg : String) (rest : List (Except String SseEvent))
    (he : rust_trim e.data ≠ "[DONE]") (hp : parse e.data = .error msg) :
    decode_chat_stream parse (.ok e :: rest)
      = .error (RainyError.Serialization msg (some msg))
          :: decode_chat_stream parse rest := by
  simp [decode_chat_stream, he, hp]

/-- CLAIM C7, witness: two consecutive undecodable payloads produce two
`Serialization` error items. -/
theorem C7_undecodable_payload_yields_error_item_witness :
    decode_chat_stream (fun _ => .error "expected value")
        [.ok ⟨"oops"⟩, .ok ⟨"oops2"⟩]
      = [.error (RainyError.Serialization "expected value"
            (some "expected value")),
         .error (RainyError.Serialization "expected value"
            (some "expected value"))] := by
  rw [C7_undecodable_payload_yields_error_item (fun _ => .error "expected value")
    ⟨"oops"⟩ "expected value" [.ok ⟨"oops2"⟩] (by decide) rfl]
  rfl

/-- Fixed-window invariant: starting inside a window with `c` admitted
requests, a batch of acquisitions all landing inside the same window and
fitting in the budget is admitted without suspension, incrementing the
count once per call and leaving the window start untouched. -/
theorem run_acquisitions_in_window (N t0 : Nat) (times : List Nat) :
    ∀ c : Nat, c + times.length ≤ N →
      (∀ t ∈ times, t - t0 < 60000) →
      run_acquisitions ⟨N, t0, c⟩ times
        = (List.replicate times.length 0, ⟨N, t0, c + times.length⟩) := by
  induction times with
  | nil =>
      intro c _ _
      simp [run_acquisitions]
  | cons t ts ih =>
      intro c hc hw
      have hc' : c + ts.length + 1 ≤ N := by
        simp only [List.length_cons] at hc
        omega
      have hlt : t - t0 < 60000 := hw t (List.mem_cons_self t ts)
      have hstep : wait_if_needed ⟨N, t0, c⟩ t = (0, ⟨N, t0, c + 1⟩) := by
        simp only [wait_if_needed]
        rw [if_neg (show ¬ (t - t0 ≥ 60000) by omega)]
        rw [if_neg (show ¬ (c ≥ N) by omega)]
      have hrest := ih (c + 1) (by omega)
        (fun u hu => hw u (List.mem_cons_of_mem t hu))
      simp only [run_acquisitions, hstep, hrest, List.replicate_succ,
        List.length_cons]
      rw [show c + 1 + ts.length = c + (ts.length + 1) by omega]

/-- CLAIM C5: for the fixed-window limiter with `requests_per_minute = N`
(`N ≥ 1`): (i) an acquisition strictly more than 60 s after the window
start resets the count and restarts the window at `now` (admitting the
call at once, with the count at 1 after the increment); (ii) an
acquisition inside the window that finds the count at `N` suspends for
the remaining window time; (iii) `N` acquisitions inside one window
never suspend; (iv) the `(N+1)`-th acquisition inside the window
suspends until exactly the window boundary `t0 + 60000`. -/
theorem C5_fixed_window_limiter (N t0 : Nat) (hN : 1 ≤ N) :
    (∀ (s : RateLimiterState) (now : Nat), s.requests_per_minute = N →
      60000 < now - s.last_request →
      wait_if_needed s now = (0, ⟨N, now, 1⟩)) ∧
    (∀ (s : RateLimiterState) (now : Nat), s.requests_per_minute = N →
      s.request_count = N → now - s.last_request < 60000 →
      (wait_if_needed s now).1 = 60000 - (now - s.last_request)) ∧
    (∀ times : List Nat, times.length = N →
      (∀ t ∈ times, t - t0 < 60000) →
      (run_acquisitions (RateLimiter.new N t0) times).1
        = List.replicate N 0) ∧
    (∀ (times : List Nat) (t : Nat), times.length = N →
      (∀ u ∈ times, u - t0 < 60000) → t0 ≤ t → t - t0 < 60000 →
      (wait_if_needed (run_acquisitions (RateLimiter.new N t0) times).2 t).1
          = 60000 - (t - t0) ∧
      t + (wait_if_needed
            (run_acquisitions (RateLimiter.new N t0) times).2 t).1
          = t0 + 60000) := by
  have hfull : ∀ times : List Nat, times.length = N →
      (∀ t ∈ times, t - t0 < 60000) →
      run_acquisitions (RateLimiter.new N t0) times
        = (List.replicate N 0, ⟨N, t0, N⟩) := by
    intro times hlen hw
    have h := run_acquisitions_in_window N t0 times 0 (by omega) hw
    rw [RateLimiter.new, h, hlen]
    simp
  refine ⟨?_, ?_, ?_, ?_⟩
  · intro s now hrpm helapsed
    obtain ⟨rpm, last, count⟩ := s
    simp only [wait_if_needed]
    simp only at hrpm helapsed
    rw [if_pos (show now - last ≥ 60000 by omega)]
    rw [if_neg (show ¬ ((0 : Nat) ≥ rpm) by omega)]
    rw [hrpm]
  · intro s now hrpm hcount helapsed
    obtain ⟨rpm, last, count⟩ := s
    simp only [wait_if_needed]
    simp only at hrpm hcount helapsed
    rw [if_neg (show ¬ (now - last ≥ 60000) by omega)]
    rw [if_pos (show count ≥ rpm by omega)]
  · intro times hlen hw
    rw [hfull times hlen hw]
  · intro times t hlen hw ht0 htw
    rw [hfull times hlen hw]
    simp only [wait_if_needed]
    rw [if_neg (show ¬ (t - t0 ≥ 60000) by omega)]
    rw [if_pos (show N ≥ N from Nat.le_refl N)]
    exact ⟨rfl, by omega⟩

/-- CLAIM C5, witness: `N = 2`, window starting at 0 — two acquisitions
at 10 ms and 20 ms never suspend, and a third at 30 ms suspends for
59 970 ms, i.e. until the window boundary at 60 000 ms. -/
theorem C5_fixed_window_limiter_witness :
    (run_acquisitions (RateLimiter.new 2 0) [10, 20]).1 = [0, 0] ∧
    (wait_if_needed (run_acquisitions (RateLimiter.new 2 0) [10, 20]).2
        30).1 = 59970 := by
  have h := C5_fixed_window_limiter 2 0 (by decide)
  constructor
  · have h3 := h.2.2.1 [10, 20] rfl (by decide)
    simpa using h3
  · have h4 := (h.2.2.2 [10, 20] 30 rfl (by decide) (by decide)
      (by decide)).1
    simpa using h4

/-- CLAIM C10: when the inner `chat_completion` call succeeds,
`simple_chat` returns `Ok` with the empty string if the response's
`choices` list is empty, and the content of the first choice's message
otherwise; it never turns an empty `choices` list into an error. -/
theorem C10_simple_chat_first_choice_or_empty
    (response : ChatCompletionResponse) (metadata : RequestMetadata) :
    (response.choices = [] →
      simple_chat (.ok (response, metadata)) = .ok "") ∧
    (∀ choice rest, response.choices = choice :: rest →
      simple_chat (.ok (response, metadata))
        = .ok choice.message.content) := by
  constructor
  · intro h
    simp [simple_chat, h]
  · intro choice rest h
    simp [simple_chat, h]

/-- CLAIM C10, witness: a successful response with no choices yields
`Ok ""`; one with a first choice yields that choice's message content. -/
theorem C10_simple_chat_first_choice_or_empty_witness :
    simple_chat (.ok (⟨"id-1", "chat.completion", 0, "gpt-4o", [], none⟩,
        ⟨none, none, none, none, none, none⟩)) = .ok "" ∧
    simple_chat (.ok (⟨"id-2", "chat.completion", 0, "gpt-4o",
        [⟨0, ⟨MessageRole.Assistant, "hello"⟩, "stop"⟩], none⟩,
        ⟨none, none, none, none, none, none⟩)) = .ok "hello" := by
  constructor
  · exact (C10_simple_chat_first_choice_or_empty
      ⟨"id-1", "chat.completion", 0, "gpt-4o", [], none⟩
      ⟨none, none, none, none, none, none⟩).1 rfl
  · exact (C10_simple_chat_first_choice_or_empty
      ⟨"id-2", "chat.completion", 0, "gpt-4o",
        [⟨0, ⟨MessageRole.Assistant, "hello"⟩, "stop"⟩], none⟩
      ⟨none, none, none, none, none, none⟩).2
      ⟨0, ⟨MessageRole.Assistant, "hello"⟩, "stop"⟩ [] rfl

end RainySdk
